import Mathlib

/-!
Shallow embedding of the plotting mixin of the ndcube repository
(file ndcube/mixins/plotting.py, class NDCubePlotMixin).

External collaborators (matplotlib, the sunpy animators, astropy units and
the WCS coordinate machinery) are modelled as opaque data: a rendering call
is represented by a record of the arguments handed to it, unit conversion is
modelled as relabelling the unit tag of a quantity (numeric conversion is a
declared non-goal of the specification), and coordinate lookups are fields of
the cube holding the black-box results of those lookups.

Python-level behaviour that the control flow of the source depends on is
modelled explicitly: truthiness of the image_axes argument, list subscripting
with negative-index wrapping and IndexError, TypeError from subscripting a
scalar, and UnboundLocalError for local variables that are only assigned on
some paths. The identity tests of the source on small integers (naxis is not
2, index is not 2) behave as inequality tests in CPython and are modelled as
such.

Every method of the source is embedded in state-passing form (the cube goes
in, a cube comes out next to the result): the source never assigns to an
attribute of self, so each exit returns the cube it received; the
state-passing form turns this frame property into a provable statement.
-/

deriving instance DecidableEq for Except

namespace NDCubePlot

/-- Python exceptions distinguished by the control flow of the source. -/
inductive PyError
  | typeError (msg : String)
  | valueError (msg : String)
  | indexError
  | unboundLocal (name : String)
deriving DecidableEq

/-- A physical quantity: carried values plus a unit tag. Unit conversion is
delegated to the external units library (a declared non-goal) and therefore
modelled as relabelling the tag while keeping the carried values. -/
structure Quantity where
  values : List Int
  unit : String
deriving DecidableEq

/-- Model of the method Quantity.to of the external units library. -/
def Quantity.to (q : Quantity) (u : String) : Quantity :=
  { values := q.values, unit := u }

/-- The slice of the cube coordinate-system descriptor that the source
reads: only its number of axes. -/
structure WCSDesc where
  naxis : Nat
deriving DecidableEq

/-- The cube that NDCubePlotMixin is mixed into. The first six fields mirror
the attributes the source reads (data is kept as a flat value list next to
its shape, since the source only forwards it). The last two fields hold the
black-box results of the coordinate lookups the source performs:
pixelToWorldX is the value of pixel_to_world(Quantity(arange(shape[0]), pix))
at index 0, and axisWorldCoordsData lists the result of axis_world_coords(i)
for each axis i. -/
structure Cube where
  shape : List Nat
  data : List Int
  unit : Option String
  wcs : WCSDesc
  missing_axis : List Bool
  world_axis_physical_types : List String
  pixelToWorldX : Quantity
  axisWorldCoordsData : List Quantity
deriving DecidableEq

/-- Model of self.data.ndim. -/
def Cube.ndim (c : Cube) : Nat := c.shape.length

/-- Python index arithmetic on a length-n list: a negative index counts
from the end. -/
def pyIndexVal (i : Int) (n : Nat) : Int :=
  if i < 0 then i + n else i

/-- Python list indexing: a negative index counts from the end; the result
is the wrapped non-negative position when it is in range. -/
def wrapIdx (i : Int) (n : Nat) : Option Nat :=
  if 0 ≤ pyIndexVal i n ∧ pyIndexVal i n < n then some (pyIndexVal i n).toNat
  else none

/-- Python subscript l[i] on a list: IndexError when out of range after
negative-index wrapping. -/
def pyGet {α : Type} (l : List α) (i : Int) : Except PyError α :=
  match wrapIdx i l.length with
  | some j =>
    match l[j]? with
    | some v => .ok v
    | none => .error .indexError
  | none => .error .indexError

/-- Python subscript assignment l[i] = v on a list: IndexError when out of
range after negative-index wrapping. -/
def pySet {α : Type} (l : List α) (i : Int) (v : α) : Except PyError (List α) :=
  match wrapIdx i l.length with
  | some j => .ok (l.set j v)
  | none => .error .indexError

/-- Python str() of an optional string, as used in the label format calls:
str(None) is the text None. -/
def pyStrOpt : Option String → String
  | none => "None"
  | some s => s

/-- The image_axes argument of plot: omitted (None), a scalar, or a list. -/
inductive ImageAxesArg
  | noneArg
  | scalar (n : Int)
  | list (l : List Int)
deriving DecidableEq

/-- Python truthiness of the image_axes argument, as tested by the source
line if not image_axes: None and the scalar 0 and the empty list are falsy. -/
def iaTruthy : ImageAxesArg → Bool
  | .noneArg => false
  | .scalar n => n != 0
  | .list l => !l.isEmpty

/-- The plot_axis_index computation of plot: try int(image_axes), catching
the TypeError a list raises; then use the single element when the list has
length one, otherwise None. (The noneArg case is unreachable here because a
None argument is replaced by the default list before this point.) -/
def plotAxisIndex : ImageAxesArg → Option Int
  | .scalar n => some n
  | .list l => if l.length = 1 then some (l.headD 0) else none
  | .noneArg => none

/-- Python subscript image_axes[1] on the image_axes argument: subscripting
a scalar (or None) raises TypeError, a list is indexed as usual. -/
def iaGet1 : ImageAxesArg → Except PyError Int
  | .noneArg => .error (.typeError "NoneType object is not subscriptable")
  | .scalar _ => .error (.typeError "int object is not subscriptable")
  | .list l => pyGet l 1

/-- The list payload of the image_axes argument, as forwarded to the 3D
strategy (on the path that reaches that call the argument is always a list:
a scalar fails at the subscript image_axes[1] first). -/
def iaToList : ImageAxesArg → List Int
  | .list l => l
  | .scalar n => [n]
  | .noneArg => []

/-- Number of entries not flagged missing, the quantity the variable index
of plot_2D_cubeSt counts. -/
def countFalse : List Bool → Nat
  | [] => 0
  | b :: rest => (if b then 0 else 1) + countFalse rest

/-- An entry of the slice descriptor handed to gca_wcs: the fixed index 1
for a missing dimension, or an image-axis role string. -/
abbrev SliceItem := Sum Nat String

/-- The slice-descriptor loop of plot_2D_cubeSt: iterate missing_axis in
order; a dimension not flagged missing receives the next image-axis role
(subscripting roles with the running index, IndexError when the roles run
out), a missing dimension is fixed to the index 1. Returns the descriptor
together with the final value of the running index. -/
def buildSliceList (missing : List Bool) (roles : List String) (index : Nat) :
    Except PyError (List SliceItem × Nat) :=
  match missing with
  | [] => .ok ([], index)
  | b :: rest =>
    if b then
      match buildSliceList rest roles index with
      | .ok (l, i) => .ok (Sum.inl 1 :: l, i)
      | .error e => .error e
    else
      match roles[index]? with
      | some r =>
        match buildSliceList rest roles (index + 1) with
        | .ok (l, i) => .ok (Sum.inr r :: l, i)
        | .error e => .error e
      | none => .error .indexError

/-- The drawing surface an image is rendered onto: either the explicit axes
object the caller supplied, or the surface gca_wcs derives from the cube
coordinate system and a slice descriptor. -/
inductive AxesSurface
  | explicit (id : Nat)
  | derivedFromWcs (naxis : Nat) (slices : List SliceItem)
deriving DecidableEq

/-- The argument record handed to the external LineAnimator component. -/
structure LineAnimatorCall where
  data : List Int
  plot_axis_index : Int
  axis_ranges : List (Option (List Int))
  xlabel : String
  ylabel : String
deriving DecidableEq

/-- The rendering call a strategy ends in, recorded with its arguments. -/
inductive PlotOutcome
  | animated2D (data : List Int) (naxis : Nat) (image_axes : List Int)
      (unit_x_axis unit_y_axis : Option String)
      (axis_ranges : Option (List (Option (List Int))))
  | static2D (surface : AxesSurface) (data : List Int)
  | static1D (xdata : Quantity) (ydata : Sum (List Int) Quantity)
      (xlabel ylabel : String)
  | animated1D (call : LineAnimatorCall)
deriving DecidableEq

/-- The TypeError message raised when unit_y_axis is requested on a cube
whose unit is None (identical text in both 1D strategies). -/
def unitNoneMsg : String :=
  "NDCube.unit is None.  Must be an astropy.units.unit or valid unit string in order to set unit_y_axis."

/-- The ValueError message of the dimensionality check of plot_2D_cubeSt. -/
def dimMismatchMsg : String :=
  "Dimensions of WCS and data don\x27t match"

/-- The conditional x-data unit conversion shared by both 1D strategies:
convert when a display unit is given, keep the quantity otherwise. -/
def convertQ (q : Quantity) (u : Option String) : Quantity :=
  match u with
  | some u2 => q.to u2
  | none => q

/-- Embedding of the method plot_1D_cube. The loop filling index_not_one in
the source is computed and never used, so it leaves no trace here. The
label for the x axis subscripts world_axis_physical_types at 0; the label
for the y axis uses the reassigned unit_y_axis variable (the cube unit when
no display unit was requested). -/
def plot_1D_cubeSt (c : Cube) (unit_x_axis unit_y_axis : Option String) :
    Except PyError PlotOutcome × Cube :=
  let xdata := convertQ c.pixelToWorldX unit_x_axis
  match unit_y_axis with
  | none =>
    match pyGet c.world_axis_physical_types 0 with
    | .ok t0 =>
      (.ok (.static1D xdata (Sum.inl c.data)
        (t0 ++ " [" ++ pyStrOpt unit_x_axis ++ "]")
        ("Data [" ++ pyStrOpt c.unit ++ "]")), c)
    | .error e => (.error e, c)
  | some u2 =>
    match c.unit with
    | none => (.error (.typeError unitNoneMsg), c)
    | some cu =>
      match pyGet c.world_axis_physical_types 0 with
      | .ok t0 =>
        (.ok (.static1D xdata (Sum.inr ((Quantity.mk c.data cu).to u2))
          (t0 ++ " [" ++ pyStrOpt unit_x_axis ++ "]")
          ("Data [" ++ u2 ++ "]")), c)
      | .error e => (.error e, c)

/-- Embedding of the method plot_2D_cube. With explicit axes the image is
rendered on them directly. With no axes the source builds slice_list only
inside the branch where naxis differs from 2; the gca_wcs line that follows
runs in both cases, so when naxis equals 2 it reads the never-assigned
local slice_list and raises UnboundLocalError. Inside the building branch
the role subscript can raise IndexError (more than two non-missing
dimensions) before the explicit ValueError check for a final index other
than 2. -/
def plot_2D_cubeSt (c : Cube) (axes : Option Nat) (image_axes : List String) :
    Except PyError PlotOutcome × Cube :=
  let ia := if image_axes.isEmpty then ["x", "y"] else image_axes
  match axes with
  | some a => (.ok (.static2D (.explicit a) c.data), c)
  | none =>
    if c.wcs.naxis ≠ 2 then
      match buildSliceList c.missing_axis ia 0 with
      | .error e => (.error e, c)
      | .ok (slices, index) =>
        if index ≠ 2 then (.error (.valueError dimMismatchMsg), c)
        else (.ok (.static2D (.derivedFromWcs c.wcs.naxis slices) c.data), c)
    else (.error (.unboundLocal "slice_list"), c)

/-- Embedding of the method plot_3D_cube: every argument is forwarded to the
external ImageAnimatorWCS component after the same falsy-default
normalisation of image_axes as in plot. -/
def plot_3D_cubeSt (c : Cube) (image_axes : List Int)
    (unit_x_axis unit_y_axis : Option String)
    (axis_ranges : Option (List (Option (List Int)))) :
    Except PyError PlotOutcome × Cube :=
  let ia := if image_axes.isEmpty then [-1, -2] else image_axes
  (.ok (.animated2D c.data c.wcs.naxis ia unit_x_axis unit_y_axis axis_ranges), c)

/-- Embedding of the method animateCube1D. World coordinates along the plot
axis are looked up and optionally converted; the axis_ranges list starts as
None replicated over the array rank and the entry of the plot axis is
assigned the coordinate values. The local variable data is assigned only
inside the truthy unit_y_axis branch, so with no display unit the argument
data.value of the LineAnimator call raises UnboundLocalError; with a display
unit but a None cube unit the branch raises TypeError first. The x label
subscripts world_axis_physical_types at the plot axis. -/
def animate_cube_1DSt (c : Cube) (plot_axis_index : Int)
    (unit_x_axis unit_y_axis : Option String) :
    Except PyError PlotOutcome × Cube :=
  match pyGet c.axisWorldCoordsData plot_axis_index with
  | .error e => (.error e, c)
  | .ok xq =>
    let xdata := convertQ xq unit_x_axis
    match pySet (List.replicate c.ndim (none : Option (List Int)))
        plot_axis_index (some xdata.values) with
    | .error e => (.error e, c)
    | .ok axis_ranges =>
      match unit_y_axis with
      | none => (.error (.unboundLocal "data"), c)
      | some u2 =>
        match c.unit with
        | none => (.error (.typeError unitNoneMsg), c)
        | some cu =>
          match pyGet c.world_axis_physical_types plot_axis_index with
          | .error e => (.error e, c)
          | .ok t =>
            (.ok (.animated1D
              { data := ((Quantity.mk c.data cu).to u2).values
                plot_axis_index := plot_axis_index
                axis_ranges := axis_ranges
                xlabel := t ++ " [" ++ pyStrOpt unit_x_axis ++ "]"
                ylabel := "Data [" ++ u2 ++ "]" }), c)

/-- Embedding of the dispatcher plot. A falsy image_axes argument (None,
the scalar 0, the empty list) is replaced by the default list [-1, -2];
plot_axis_index is then derived, and a single-axis request on a cube of
rank above one goes to the animated 1D strategy. Every other request first
runs the axis_data role assignment (which subscripts image_axes at 1) and
then branches purely on the array rank; at rank 0 no branch assigns the
local plot and the trailing return raises UnboundLocalError. The unused
keyword argument unit of the source is kept as the equally unused unitArg. -/
def plotDispatchSt (c : Cube) (axes : Option Nat) (image_axes : ImageAxesArg)
    (unit_x_axis unit_y_axis : Option String)
    (axis_ranges : Option (List (Option (List Int))))
    (_unitArg : Option String) :
    Except PyError PlotOutcome × Cube :=
  let ia := if iaTruthy image_axes then image_axes else .list [-1, -2]
  let pai := plotAxisIndex ia
  if pai.isSome ∧ c.ndim > 1 then
    animate_cube_1DSt c (pai.getD 0) unit_x_axis unit_y_axis
  else
    match iaGet1 ia with
    | .error e => (.error e, c)
    | .ok idx1 =>
      match pySet ["x", "x"] idx1 "y" with
      | .error e => (.error e, c)
      | .ok axis_data =>
        if c.ndim ≥ 3 then
          plot_3D_cubeSt c (iaToList ia) unit_x_axis unit_y_axis axis_ranges
        else if c.ndim = 2 then
          plot_2D_cubeSt c axes axis_data.reverse
        else if c.ndim = 1 then
          plot_1D_cubeSt c unit_x_axis unit_y_axis
        else
          (.error (.unboundLocal "plot"), c)

/-! Helper lemmas about the Python indexing primitives. -/

lemma wrapIdx_lt_of_some {i : Int} {n j : Nat} (h : wrapIdx i n = some j) :
    j < n := by
  unfold wrapIdx at h
  split at h
  · next hc =>
      injection h with h2
      omega
  · exact absurd h (by simp)

lemma pySet_eq_of_wrapIdx {α : Type} {l : List α} {i : Int} {j : Nat} (v : α)
    (h : wrapIdx i l.length = some j) :
    pySet l i v = .ok (l.set j v) := by
  unfold pySet
  rw [h]

/-! Frame lemmas: each embedded method returns the cube it received. -/

lemma snd_plot_1D_cubeSt (c : Cube) (ux uy : Option String) :
    (plot_1D_cubeSt c ux uy).2 = c := by
  unfold plot_1D_cubeSt
  dsimp only
  repeat' split
  all_goals rfl

lemma snd_plot_2D_cubeSt (c : Cube) (axes : Option Nat) (ia : List String) :
    (plot_2D_cubeSt c axes ia).2 = c := by
  unfold plot_2D_cubeSt
  dsimp only
  repeat' split
  all_goals rfl

lemma snd_plot_3D_cubeSt (c : Cube) (ia : List Int) (ux uy : Option String)
    (ar : Option (List (Option (List Int)))) :
    (plot_3D_cubeSt c ia ux uy ar).2 = c := rfl

lemma snd_animate_cube_1DSt (c : Cube) (pai : Int) (ux uy : Option String) :
    (animate_cube_1DSt c pai ux uy).2 = c := by
  unfold animate_cube_1DSt
  dsimp only
  repeat' split
  all_goals rfl

/-! Sample cubes used as concrete inputs by witnesses and counterexamples. -/

/-- A rank-1 cube with three samples and a defined unit. -/
def cubeA : Cube :=
  { shape := [3]
    data := [10, 20, 30]
    unit := some "ct"
    wcs := { naxis := 1 }
    missing_axis := [false]
    world_axis_physical_types := ["em.wl"]
    pixelToWorldX := { values := [0, 1, 2], unit := "m" }
    axisWorldCoordsData := [{ values := [0, 1, 2], unit := "m" }] }

/-- A rank-2 cube with a defined unit whose coordinate system has three
axes, the middle one flagged missing. -/
def cubeB : Cube :=
  { shape := [4, 5]
    data := [0, 1, 2, 3, 4, 5, 6, 7, 8, 9, 10, 11, 12, 13, 14, 15, 16, 17, 18, 19]
    unit := some "ct"
    wcs := { naxis := 3 }
    missing_axis := [false, true, false]
    world_axis_physical_types := ["custom:w0", "custom:w1", "custom:w2"]
    pixelToWorldX := { values := [0, 1, 2, 3], unit := "m" }
    axisWorldCoordsData := [{ values := [0, 1, 2, 3], unit := "m" },
                            { values := [0, 10, 20, 30, 40], unit := "s" }] }

/-- A rank-2 cube whose unit is undefined (None). -/
def cubeNoUnit : Cube :=
  { shape := [2, 3]
    data := [1, 2, 3, 4, 5, 6]
    unit := none
    wcs := { naxis := 2 }
    missing_axis := [false, false]
    world_axis_physical_types := ["custom:a", "custom:b"]
    pixelToWorldX := { values := [0, 1], unit := "m" }
    axisWorldCoordsData := [{ values := [0, 1], unit := "m" },
                            { values := [0, 10, 20], unit := "s" }] }

/-- A plain rank-2 cube whose coordinate system has exactly two axes, both
present: the shape-(5,5) cube of the specification example. -/
def cube5x5 : Cube :=
  { shape := [5, 5]
    data := [1, 1, 1, 1, 1, 1, 1, 1, 1, 1, 1, 1, 1,
             1, 1, 1, 1, 1, 1, 1, 1, 1, 1, 1, 1]
    unit := some "ct"
    wcs := { naxis := 2 }
    missing_axis := [false, false]
    world_axis_physical_types := ["custom:pos.x", "custom:pos.y"]
    pixelToWorldX := { values := [0, 1, 2, 3, 4], unit := "m" }
    axisWorldCoordsData := [{ values := [0, 1, 2, 3, 4], unit := "m" },
                            { values := [0, 2, 4, 6, 8], unit := "m" }] }

/-- A rank-3 cube whose coordinate system has three axes, none missing. -/
def cubeThreeFalse : Cube :=
  { shape := [2, 2, 2]
    data := [1, 2, 3, 4, 5, 6, 7, 8]
    unit := some "ct"
    wcs := { naxis := 3 }
    missing_axis := [false, false, false]
    world_axis_physical_types := ["custom:w0", "custom:w1", "custom:w2"]
    pixelToWorldX := { values := [0, 1], unit := "m" }
    axisWorldCoordsData := [{ values := [0, 1], unit := "m" },
                            { values := [0, 1], unit := "s" },
                            { values := [0, 1], unit := "Hz" }] }

/-- A rank-1 cube whose coordinate system has a single axis. -/
def cubeD : Cube :=
  { shape := [4]
    data := [5, 6, 7, 8]
    unit := some "ct"
    wcs := { naxis := 1 }
    missing_axis := [false]
    world_axis_physical_types := ["em.wl"]
    pixelToWorldX := { values := [3, 4, 5, 6], unit := "m" }
    axisWorldCoordsData := [{ values := [3, 4, 5, 6], unit := "m" }] }

/-- C10: when an explicit drawing surface is supplied to the static 2D
image strategy, the whole default-surface derivation (and with it the
dimensionality check) is skipped: the image-display call proceeds on the
supplied surface regardless of the coordinate-system descriptor and the
missing-axis flags of the cube. -/
theorem C10_explicit_axes_skip_check (c : Cube) (a : Nat) (image_axes : List String) :
    plot_2D_cubeSt c (some a) image_axes = (.ok (.static2D (.explicit a) c.data), c) :=
  rfl

/-- C8: every call of the dispatcher returns the cube it was given: the
embedding is in state-passing form and, like the source (which contains no
assignment to any attribute of self), hands back the cube unchanged on
every path, success and error alike; as a pure function of its arguments
it retains no state between invocations. -/
theorem C8_cube_unchanged (c : Cube) (axes : Option Nat) (image_axes : ImageAxesArg)
    (ux uy : Option String) (ar : Option (List (Option (List Int))))
    (ua : Option String) :
    (plotDispatchSt c axes image_axes ux uy ar ua).2 = c := by
  unfold plotDispatchSt
  dsimp only
  repeat' split
  all_goals
    first
    | rfl
    | apply snd_animate_cube_1DSt
    | apply snd_plot_3D_cubeSt
    | apply snd_plot_2D_cubeSt
    | apply snd_plot_1D_cubeSt

/-! Lemmas about the slice-descriptor loop. -/

@[simp] lemma countFalse_nil : countFalse [] = 0 := rfl

@[simp] lemma countFalse_cons_true (rest : List Bool) :
    countFalse (true :: rest) = countFalse rest := by
  simp [countFalse]

@[simp] lemma countFalse_cons_false (rest : List Bool) :
    countFalse (false :: rest) = 1 + countFalse rest := rfl

/-- When the image-axis roles suffice (running index plus the number of
non-missing dimensions stays within the role list), the loop completes:
the final index is the start index plus the non-missing count, the
descriptor has one entry per coordinate dimension, a missing dimension is
fixed to the index 1 and a non-missing dimension receives the role at the
start index plus the number of non-missing dimensions before it. -/
lemma buildSliceList_ok (missing : List Bool) (roles : List String) :
    ∀ index, index + countFalse missing ≤ roles.length →
    ∃ l, buildSliceList missing roles index = .ok (l, index + countFalse missing)
      ∧ l.length = missing.length
      ∧ ∀ i, (missing[i]? = some true → l[i]? = some (Sum.inl 1))
           ∧ (missing[i]? = some false →
               l[i]? = (roles[index + countFalse (missing.take i)]?).map Sum.inr) := by
  induction missing with
  | nil =>
    intro index _
    refine ⟨[], by simp [buildSliceList], rfl, ?_⟩
    intro i
    constructor <;> simp
  | cons b rest ih =>
    intro index hle
    cases b
    · have hle0 : 1 + countFalse rest ≤ roles.length := by
        simp at hle
        omega
      have hidx : index < roles.length := by
        simp at hle
        omega
      have hrole : roles[index]? = some roles[index] :=
        List.getElem?_eq_getElem hidx
      have hle2 : (index + 1) + countFalse rest ≤ roles.length := by
        simp at hle
        omega
      obtain ⟨l2, h1, h2, h3⟩ := ih (index + 1) hle2
      refine ⟨Sum.inr roles[index] :: l2, ?_, by simp [h2], ?_⟩
      · have harith : (index + 1) + countFalse rest = index + countFalse (false :: rest) := by
          simp
          omega
        simp only [buildSliceList, Bool.false_eq_true, if_false, hrole, h1, harith]
      · intro i
        cases i with
        | zero =>
          constructor
          · intro hm
            simp at hm
          · intro _
            simp [hrole]
        | succ i2 =>
          constructor
          · intro hm
            simp only [List.getElem?_cons_succ] at hm ⊢
            exact (h3 i2).1 hm
          · intro hm
            simp only [List.getElem?_cons_succ] at hm ⊢
            rw [(h3 i2).2 hm]
            have harith2 : (index + 1) + countFalse (rest.take i2) =
                index + countFalse ((false :: rest).take (i2 + 1)) := by
              simp only [List.take_succ_cons, countFalse_cons_false]
              omega
            rw [harith2]
    · have hle2 : index + countFalse rest ≤ roles.length := by
        simpa using hle
      obtain ⟨l2, h1, h2, h3⟩ := ih index hle2
      refine ⟨Sum.inl 1 :: l2, ?_, by simp [h2], ?_⟩
      · simp [buildSliceList, h1]
      · intro i
        cases i with
        | zero => constructor <;> simp
        | succ i2 =>
          constructor
          · intro hm
            simp only [List.getElem?_cons_succ] at hm ⊢
            exact (h3 i2).1 hm
          · intro hm
            simp only [List.getElem?_cons_succ] at hm ⊢
            rw [(h3 i2).2 hm]
            simp [List.take_succ_cons]

/-- When the image-axis roles run out (the running index starts within the
role list but the non-missing count exceeds what is left of it), the loop
raises IndexError at the role subscript. -/
lemma buildSliceList_error (missing : List Bool) (roles : List String) :
    ∀ index, index ≤ roles.length → roles.length - index < countFalse missing →
    buildSliceList missing roles index = .error .indexError := by
  induction missing with
  | nil =>
    intro index _ h2
    simp [countFalse] at h2
  | cons b rest ih =>
    intro index h1 h2
    cases b
    · by_cases hidx : index < roles.length
      · have hrole : roles[index]? = some roles[index] :=
          List.getElem?_eq_getElem hidx
        have h3 : roles.length - (index + 1) < countFalse rest := by
          simp at h2
          omega
        simp [buildSliceList, hrole, ih (index + 1) (by omega) h3]
      · have hix : roles.length ≤ index := by omega
        have hrole : roles[index]? = none := List.getElem?_eq_none hix
        simp [buildSliceList, hrole]
    · have h3 : roles.length - index < countFalse rest := by
        simpa using h2
      simp [buildSliceList, ih index h1 h3]

/-- C6: in the static 2D image strategy with no drawing surface supplied,
the slice descriptor is built by iterating the coordinate dimensions in
order with the two image-axis roles x and y: whenever the roles suffice
(at most two non-missing dimensions, in particular on every completing
run), the descriptor has one entry per coordinate dimension, each missing
dimension is fixed to the index 1, and each non-missing dimension receives
the next image-axis role in order (the role indexed by the number of
non-missing dimensions before it); the final running index is the number
of non-missing dimensions. -/
theorem C6_slice_descriptor (missing : List Bool)
    (h : countFalse missing ≤ 2) :
    ∃ l, buildSliceList missing ["x", "y"] 0 = .ok (l, countFalse missing)
      ∧ l.length = missing.length
      ∧ ∀ i, (missing[i]? = some true → l[i]? = some (Sum.inl 1))
           ∧ (missing[i]? = some false →
               l[i]? = ((["x", "y"] : List String)[countFalse (missing.take i)]?).map Sum.inr) := by
  have h2 : 0 + countFalse missing ≤ (["x", "y"] : List String).length := by
    simpa using h
  obtain ⟨l, h1, hlen, hent⟩ := buildSliceList_ok missing ["x", "y"] 0 h2
  refine ⟨l, by simpa using h1, hlen, ?_⟩
  intro i
  refine ⟨(hent i).1, ?_⟩
  intro hm
  have := (hent i).2 hm
  simpa using this

/-- Witness for C6 at a concrete input: three coordinate dimensions with
the middle one flagged missing. -/
theorem C6_witness :
    ∃ l, buildSliceList [false, true, false] ["x", "y"] 0 =
        .ok (l, countFalse [false, true, false])
      ∧ l.length = ([false, true, false] : List Bool).length
      ∧ ∀ i, (([false, true, false] : List Bool)[i]? = some true →
                l[i]? = some (Sum.inl 1))
           ∧ (([false, true, false] : List Bool)[i]? = some false →
               l[i]? = ((["x", "y"] : List String)[countFalse (([false, true, false] : List Bool).take i)]?).map Sum.inr) :=
  C6_slice_descriptor [false, true, false] (by decide)

/-- C1 counterexample: on a rank-1 cube a one-element image_axes list does
not select the static 1D line strategy: the axis-role assignment
subscripts image_axes at position 1 and raises IndexError before any
strategy is chosen, while the static 1D strategy itself would succeed. -/
theorem C1_counterexample :
    (plotDispatchSt cubeA none (.list [0]) none none none none).1 = .error .indexError
    ∧ (plot_1D_cubeSt cubeA none none).1 ≠ .error .indexError := by
  decide

/-- C1 amended: for a rank-1 cube the dispatcher selects the static 1D
line strategy when image_axes is omitted, is the falsy scalar 0, or is a
two-element list whose second element is a valid index into the
two-element axis-role list (that is, one of -2, -1, 0, 1); a non-zero
scalar instead raises TypeError and a one-element list raises IndexError
at the axis-role assignment, before any strategy is selected. -/
theorem C1_amended_rank1_dispatch (c : Cube) (axes : Option Nat)
    (ux uy : Option String) (ar : Option (List (Option (List Int))))
    (ua : Option String) (h : c.ndim = 1) :
    plotDispatchSt c axes .noneArg ux uy ar ua = plot_1D_cubeSt c ux uy
    ∧ plotDispatchSt c axes (.scalar 0) ux uy ar ua = plot_1D_cubeSt c ux uy
    ∧ (∀ a b : Int, b = -2 ∨ b = -1 ∨ b = 0 ∨ b = 1 →
        plotDispatchSt c axes (.list [a, b]) ux uy ar ua = plot_1D_cubeSt c ux uy)
    ∧ (∀ n : Int, n ≠ 0 →
        plotDispatchSt c axes (.scalar n) ux uy ar ua =
          (.error (.typeError "int object is not subscriptable"), c))
    ∧ (∀ a : Int,
        plotDispatchSt c axes (.list [a]) ux uy ar ua = (.error .indexError, c)) := by
  refine ⟨?_, ?_, ?_, ?_, ?_⟩
  · simp [plotDispatchSt, iaTruthy, plotAxisIndex, iaGet1, pyGet, pySet, wrapIdx,
      pyIndexVal, h]
  · simp [plotDispatchSt, iaTruthy, plotAxisIndex, iaGet1, pyGet, pySet, wrapIdx,
      pyIndexVal, h]
  · intro a b hb
    rcases hb with hb | hb | hb | hb <;> subst hb <;>
      simp [plotDispatchSt, iaTruthy, plotAxisIndex, iaGet1, pyGet, pySet, wrapIdx,
        pyIndexVal, h]
  · intro n hn
    simp [plotDispatchSt, iaTruthy, plotAxisIndex, iaGet1, hn, h]
  · intro a
    simp [plotDispatchSt, iaTruthy, plotAxisIndex, iaGet1, pyGet, pySet, wrapIdx,
      pyIndexVal, h]

/-- Witness for C1 amended at a concrete input: the rank-1 cube cubeA. -/
theorem C1_amended_witness :
    cubeA.ndim = 1
    ∧ plotDispatchSt cubeA none .noneArg none none none none =
        plot_1D_cubeSt cubeA none none
    ∧ plotDispatchSt cubeA none (.scalar 0) none none none none =
        plot_1D_cubeSt cubeA none none
    ∧ plotDispatchSt cubeA none (.list [0, 1]) none none none none =
        plot_1D_cubeSt cubeA none none
    ∧ plotDispatchSt cubeA none (.scalar 2) none none none none =
        (.error (.typeError "int object is not subscriptable"), cubeA)
    ∧ plotDispatchSt cubeA none (.list [0]) none none none none =
        (.error .indexError, cubeA) :=
  ⟨by decide,
   (C1_amended_rank1_dispatch cubeA none none none none none (by decide)).1,
   (C1_amended_rank1_dispatch cubeA none none none none none (by decide)).2.1,
   (C1_amended_rank1_dispatch cubeA none none none none none (by decide)).2.2.1 0 1
     (by decide),
   (C1_amended_rank1_dispatch cubeA none none none none none (by decide)).2.2.2.1 2
     (by decide),
   (C1_amended_rank1_dispatch cubeA none none none none none (by decide)).2.2.2.2 0⟩

/-- C2 counterexample: on a cube of rank above one, supplying the scalar
axis index 0 does not select the animated 1D line strategy: the scalar 0
is falsy, so it is replaced by the default two-element list and the
dispatcher proceeds to the rank-based branch (here the static 2D image
strategy). -/
theorem C2_counterexample :
    plotDispatchSt cubeB none (.scalar 0) none (some "J") none none ≠
      animate_cube_1DSt cubeB 0 none (some "J") := by
  decide

/-- C2 amended: for a cube of rank above one, a single-axis request
selects the animated 1D line strategy with that axis as the swept plot
axis when it is supplied as a non-zero scalar or as any one-element list
(including the list holding 0); the scalar 0 is falsy and falls through to
the default rank-based dispatch instead. -/
theorem C2_amended_single_axis_dispatch (c : Cube) (n : Int) (axes : Option Nat)
    (ux uy : Option String) (ar : Option (List (Option (List Int))))
    (ua : Option String) (h : 1 < c.ndim) :
    (n ≠ 0 →
      plotDispatchSt c axes (.scalar n) ux uy ar ua = animate_cube_1DSt c n ux uy)
    ∧ plotDispatchSt c axes (.list [n]) ux uy ar ua = animate_cube_1DSt c n ux uy := by
  constructor
  · intro hn
    simp [plotDispatchSt, iaTruthy, plotAxisIndex, hn, h]
  · simp [plotDispatchSt, iaTruthy, plotAxisIndex, h]

/-- Witness for C2 amended at a concrete input: the rank-2 cube cubeB with
axis 1 as a scalar and axis 0 as a one-element list. -/
theorem C2_amended_witness :
    1 < cubeB.ndim
    ∧ plotDispatchSt cubeB none (.scalar 1) none (some "J") none none =
        animate_cube_1DSt cubeB 1 none (some "J")
    ∧ plotDispatchSt cubeB none (.list [0]) none (some "J") none none =
        animate_cube_1DSt cubeB 0 none (some "J") :=
  ⟨by decide,
   (C2_amended_single_axis_dispatch cubeB 1 none none (some "J") none none
     (by decide)).1 (by decide),
   (C2_amended_single_axis_dispatch cubeB 0 none none (some "J") none none
     (by decide)).2⟩

/-- C5 counterexample: a coordinate system with three non-missing
dimensions (count differs from 2) does not produce the dimensionality
ValueError: the role subscript raises IndexError first. -/
theorem C5_counterexample :
    (plot_2D_cubeSt cubeThreeFalse none ["x", "y"]).1 = .error .indexError
    ∧ (plot_2D_cubeSt cubeThreeFalse none ["x", "y"]).1 ≠
        .error (.valueError dimMismatchMsg) := by
  decide

/-- C5 amended: in the static 2D image strategy with no drawing surface,
a non-missing dimension count different from 2 always makes the call fail
before any rendering call, but the dimensionality-mismatch ValueError is
raised exactly on the paths where the coordinate axis count differs from 2
and fewer than two dimensions are non-missing; more than two non-missing
dimensions surface as an IndexError from the role subscript and a
coordinate axis count of exactly 2 as an UnboundLocalError on slice_list. -/
theorem C5_amended_dimension_errors (c : Cube)
    (h2 : countFalse c.missing_axis ≠ 2) :
    (∃ e, plot_2D_cubeSt c none ["x", "y"] = (.error e, c))
    ∧ (c.wcs.naxis ≠ 2 → countFalse c.missing_axis < 2 →
        plot_2D_cubeSt c none ["x", "y"] = (.error (.valueError dimMismatchMsg), c)) := by
  have hmain : c.wcs.naxis ≠ 2 → countFalse c.missing_axis < 2 →
      plot_2D_cubeSt c none ["x", "y"] = (.error (.valueError dimMismatchMsg), c) := by
    intro hn hlt
    have hb : 0 + countFalse c.missing_axis ≤ (["x", "y"] : List String).length := by
      simp
      omega
    obtain ⟨l, h1, _, _⟩ := buildSliceList_ok c.missing_axis ["x", "y"] 0 hb
    rw [Nat.zero_add] at h1
    simp [plot_2D_cubeSt, hn, h1, h2]
  refine ⟨?_, hmain⟩
  by_cases hn : c.wcs.naxis = 2
  · exact ⟨.unboundLocal "slice_list", by simp [plot_2D_cubeSt, hn]⟩
  · by_cases hcmp : countFalse c.missing_axis ≤ 2
    · have hlt : countFalse c.missing_axis < 2 := by omega
      exact ⟨.valueError dimMismatchMsg, hmain hn hlt⟩
    · have herr : buildSliceList c.missing_axis ["x", "y"] 0 = .error .indexError := by
        apply buildSliceList_error
        · simp
        · simp
          omega
      exact ⟨.indexError, by simp [plot_2D_cubeSt, hn, herr]⟩

/-- Witness for C5 amended at a concrete input: a single-axis coordinate
system with one non-missing dimension. -/
theorem C5_amended_witness :
    (∃ e, plot_2D_cubeSt cubeD none ["x", "y"] = (.error e, cubeD))
    ∧ plot_2D_cubeSt cubeD none ["x", "y"] =
        (.error (.valueError dimMismatchMsg), cubeD) :=
  ⟨(C5_amended_dimension_errors cubeD (by decide)).1,
   (C5_amended_dimension_errors cubeD (by decide)).2 (by decide) (by decide)⟩

/-- C3: evaluation of the code at the failing input of the claim. For the
shape-(5,5) cube with a two-axis coordinate system and no explicit drawing
surface, the dispatcher does not return an image-display handle: the static
2D strategy builds slice_list only in the branch where naxis differs from
2, yet the gca_wcs line that follows always reads it, so for this standard
rank-2 cube the call raises UnboundLocalError before any rendering call. -/
theorem C3_rank2_default_raises :
    plotDispatchSt cube5x5 none .noneArg none none none none =
      (.error (.unboundLocal "slice_list"), cube5x5) := by
  decide

/-- C9: on a cube of rank above one, the animated 1D line strategy with a
valid plot axis and no unit_y_axis never reaches the line-animation
component: the local variable data is assigned only inside the unit_y_axis
branch, so evaluating data.value for the LineAnimator call raises
UnboundLocalError. -/
theorem C9_unbound_data (c : Cube) (pai : Int) (ux : Option String)
    (xq : Quantity) (j : Nat)
    (_hrank : 1 < c.ndim)
    (hx : pyGet c.axisWorldCoordsData pai = .ok xq)
    (hj : wrapIdx pai c.ndim = some j) :
    animate_cube_1DSt c pai ux none = (.error (.unboundLocal "data"), c) := by
  have hset : pySet (List.replicate c.ndim (none : Option (List Int))) pai
      (some (convertQ xq ux).values) =
      .ok ((List.replicate c.ndim (none : Option (List Int))).set j
        (some (convertQ xq ux).values)) := by
    apply pySet_eq_of_wrapIdx
    rw [List.length_replicate]
    exact hj
  simp only [animate_cube_1DSt, hx, hset]

/-- Witness for C9 at a concrete input: the rank-2 cube cubeB with plot
axis 0 and no display units. -/
theorem C9_witness :
    1 < cubeB.ndim
    ∧ pyGet cubeB.axisWorldCoordsData 0 = .ok { values := [0, 1, 2, 3], unit := "m" }
    ∧ wrapIdx 0 cubeB.ndim = some 0
    ∧ animate_cube_1DSt cubeB 0 none none = (.error (.unboundLocal "data"), cubeB) :=
  ⟨by decide, by decide, by decide,
   C9_unbound_data cubeB 0 none { values := [0, 1, 2, 3], unit := "m" } 0
     (by decide) (by decide) (by decide)⟩

/-- C4: requesting unit_y_axis on a cube whose unit is None raises the
TypeError before any rendering call, in the static 1D strategy
unconditionally and in the animated 1D strategy for any valid plot axis;
and when unit_y_axis is not requested, the static 1D strategy renders the
raw data array with the native unit in the y label. -/
theorem C4_unit_none_errors (c : Cube) (ux : Option String) (u : String)
    (pai : Int) (xq : Quantity) (j : Nat) (t0 : String) :
    (c.unit = none →
      plot_1D_cubeSt c ux (some u) = (.error (.typeError unitNoneMsg), c))
    ∧ (c.unit = none →
        pyGet c.axisWorldCoordsData pai = .ok xq →
        wrapIdx pai c.ndim = some j →
        animate_cube_1DSt c pai ux (some u) = (.error (.typeError unitNoneMsg), c))
    ∧ (pyGet c.world_axis_physical_types 0 = .ok t0 →
        plot_1D_cubeSt c ux none =
          (.ok (.static1D (convertQ c.pixelToWorldX ux) (Sum.inl c.data)
            (t0 ++ " [" ++ pyStrOpt ux ++ "]")
            ("Data [" ++ pyStrOpt c.unit ++ "]")), c)) := by
  refine ⟨?_, ?_, ?_⟩
  · intro hu
    simp only [plot_1D_cubeSt, hu]
  · intro hu hx hj
    have hset : pySet (List.replicate c.ndim (none : Option (List Int))) pai
        (some (convertQ xq ux).values) =
        .ok ((List.replicate c.ndim (none : Option (List Int))).set j
          (some (convertQ xq ux).values)) := by
      apply pySet_eq_of_wrapIdx
      rw [List.length_replicate]
      exact hj
    simp only [animate_cube_1DSt, hx, hset, hu]
  · intro ht
    simp only [plot_1D_cubeSt, ht]

/-- Witness for C4 at a concrete input: the unit-less rank-2 cube
cubeNoUnit, display unit J, plot axis 0. -/
theorem C4_witness :
    plot_1D_cubeSt cubeNoUnit none (some "J") =
      (.error (.typeError unitNoneMsg), cubeNoUnit)
    ∧ animate_cube_1DSt cubeNoUnit 0 none (some "J") =
      (.error (.typeError unitNoneMsg), cubeNoUnit)
    ∧ plot_1D_cubeSt cubeNoUnit none none =
      (.ok (.static1D (convertQ cubeNoUnit.pixelToWorldX none) (Sum.inl cubeNoUnit.data)
        ("custom:a" ++ " [" ++ pyStrOpt none ++ "]")
        ("Data [" ++ pyStrOpt cubeNoUnit.unit ++ "]")), cubeNoUnit) :=
  ⟨(C4_unit_none_errors cubeNoUnit none "J" 0 { values := [0, 1], unit := "m" } 0
      "custom:a").1 rfl,
   (C4_unit_none_errors cubeNoUnit none "J" 0 { values := [0, 1], unit := "m" } 0
      "custom:a").2.1 rfl (by decide) (by decide),
   (C4_unit_none_errors cubeNoUnit none "J" 0 { values := [0, 1], unit := "m" } 0
      "custom:a").2.2 (by decide)⟩

/-- C7: in the animated 1D line strategy the axis_ranges list handed to the
LineAnimator call is the None-filled list of length equal to the array
rank with the looked-up (and, when a display unit was given, converted)
world-coordinate values placed at the wrapped plot-axis position: it has
one entry per array dimension, the plot-axis entry holds those coordinate
values and every other entry is None. -/
theorem C7_axis_ranges (c : Cube) (pai : Int) (ux : Option String) (u cu : String)
    (xq : Quantity) (j : Nat) (t : String)
    (hcu : c.unit = some cu)
    (hx : pyGet c.axisWorldCoordsData pai = .ok xq)
    (hj : wrapIdx pai c.ndim = some j)
    (ht : pyGet c.world_axis_physical_types pai = .ok t) :
    animate_cube_1DSt c pai ux (some u) =
      (.ok (.animated1D
        { data := ((Quantity.mk c.data cu).to u).values
          plot_axis_index := pai
          axis_ranges := (List.replicate c.ndim (none : Option (List Int))).set j
            (some (convertQ xq ux).values)
          xlabel := t ++ " [" ++ pyStrOpt ux ++ "]"
          ylabel := "Data [" ++ u ++ "]" }), c)
    ∧ ((List.replicate c.ndim (none : Option (List Int))).set j
        (some (convertQ xq ux).values)).length = c.ndim
    ∧ ((List.replicate c.ndim (none : Option (List Int))).set j
        (some (convertQ xq ux).values))[j]? = some (some (convertQ xq ux).values)
    ∧ ∀ k, k < c.ndim → k ≠ j →
        ((List.replicate c.ndim (none : Option (List Int))).set j
          (some (convertQ xq ux).values))[k]? = some none := by
  have hjlt : j < c.ndim := wrapIdx_lt_of_some hj
  have hset : pySet (List.replicate c.ndim (none : Option (List Int))) pai
      (some (convertQ xq ux).values) =
      .ok ((List.replicate c.ndim (none : Option (List Int))).set j
        (some (convertQ xq ux).values)) := by
    apply pySet_eq_of_wrapIdx
    rw [List.length_replicate]
    exact hj
  refine ⟨?_, ?_, ?_, ?_⟩
  · simp only [animate_cube_1DSt, hx, hset, hcu, ht]
  · rw [List.length_set, List.length_replicate]
  · rw [List.getElem?_set_self]
    rw [List.length_replicate]
    exact hjlt
  · intro k hk hkj
    rw [List.getElem?_set_ne (fun h => hkj h.symm)]
    simp [List.getElem?_replicate, hk]

/-- Witness for C7 at a concrete input: cubeB with plot axis 1, x display
unit nm, y display unit J. -/
theorem C7_witness :
    animate_cube_1DSt cubeB 1 (some "nm") (some "J") =
      (.ok (.animated1D
        { data := ((Quantity.mk cubeB.data "ct").to "J").values
          plot_axis_index := 1
          axis_ranges := (List.replicate cubeB.ndim (none : Option (List Int))).set 1
            (some (convertQ { values := [0, 10, 20, 30, 40], unit := "s" } (some "nm")).values)
          xlabel := "custom:w1" ++ " [" ++ pyStrOpt (some "nm") ++ "]"
          ylabel := "Data [" ++ "J" ++ "]" }), cubeB)
    ∧ ((List.replicate cubeB.ndim (none : Option (List Int))).set 1
        (some (convertQ { values := [0, 10, 20, 30, 40], unit := "s" } (some "nm")).values)).length
        = cubeB.ndim
    ∧ ((List.replicate cubeB.ndim (none : Option (List Int))).set 1
        (some (convertQ { values := [0, 10, 20, 30, 40], unit := "s" } (some "nm")).values))[1]?
        = some (some (convertQ { values := [0, 10, 20, 30, 40], unit := "s" } (some "nm")).values)
    ∧ ∀ k, k < cubeB.ndim → k ≠ 1 →
        ((List.replicate cubeB.ndim (none : Option (List Int))).set 1
          (some (convertQ { values := [0, 10, 20, 30, 40], unit := "s" } (some "nm")).values))[k]?
          = some none :=
  C7_axis_ranges cubeB 1 (some "nm") "J" "ct"
    { values := [0, 10, 20, 30, 40], unit := "s" } 1 "custom:w1"
    (by decide) (by decide) (by decide) (by decide)

end NDCubePlot
